import Mathlib

/-!
Verification of the Expense Tracker AI Assistant (`main.py`) against its
natural-language specification.  The Python source is shallowly embedded:
pandas dataframes become lists of `Transaction` records, the Chroma vector
store becomes an association list from collection names to chunk lists,
outbound HTTP calls become oracle parameters describing the collaborator's
outcome, and Python exceptions become `Except` values threaded through the
same try/except structure as the source.
-/

namespace ExpenseApp

/-! ## Data model -/

/-- A calendar date, as produced by `pd.to_datetime` on a valid `date` cell. -/
structure CalDate where
  year : Nat
  month : Nat
  day : Nat
deriving DecidableEq

/-- One row of the uploaded spreadsheet after parsing: columns
`name`, `price`, `category`, `date` (`main.py` line 166).  Prices are
embedded as exact rationals. -/
structure Transaction where
  name : String
  price : ℚ
  category : String
  date : CalDate
deriving DecidableEq

/-- `df['date'].dt.to_period('M')` (line 90): the calendar month of a
transaction, i.e. its (year, month) pair. -/
def monthKey (t : Transaction) : Nat × Nat := (t.date.year, t.date.month)

/-- Two-digit zero padding, as in `%m`/`%d` of `strftime`. -/
def pad2 (n : Nat) : String := if n < 10 then "0" ++ toString n else toString n

/-- Four-digit zero padding, as in `%Y` of `strftime`. -/
def pad4 (n : Nat) : String :=
  if n < 10 then "000" ++ toString n
  else if n < 100 then "00" ++ toString n
  else if n < 1000 then "0" ++ toString n
  else toString n

/-- `str(period)` for a monthly period, e.g. `2024-01` (line 99). -/
def monthStr (k : Nat × Nat) : String := pad4 k.1 ++ "-" ++ pad2 k.2

/-- `date.strftime('%Y-%m-%d')` (lines 137, 146). -/
def dateStr (d : CalDate) : String := pad4 d.year ++ "-" ++ pad2 d.month ++ "-" ++ pad2 d.day

/-- Python's `f"{x:.2f}"` on the embedded rationals: rounding to two decimal
places.  (CPython rounds the underlying binary float half-to-even; on the
exact rationals of this embedding we use `round`.  No theorem below depends
on the tie-breaking rule.) -/
def fmt2 (q : ℚ) : String :=
  let c : Int := round (q * 100)
  let s := if c < 0 then "-" else ""
  let n := c.natAbs
  s ++ toString (n / 100) ++ "." ++ pad2 (n % 100)

/-- `x.value_counts().to_dict()` (line 95): the number of occurrences of each
distinct value.  (pandas orders the dictionary by descending count; this
embedding uses first-occurrence order.  No theorem below depends on the
order.) -/
def valueCounts (l : List String) : List (String × Nat) :=
  l.dedup.map (fun c => (c, l.count c))

/-- `json.dumps(categories, indent=2)` (line 107) on a string-to-count
dictionary. -/
def jsonDumpsCounts : List (String × Nat) → String
  | [] => "\x7b\x7d"
  | l => "\x7b\n"
      ++ String.intercalate ",\n" (l.map (fun p => "  \"" ++ p.1 ++ "\": " ++ toString p.2))
      ++ "\n\x7d"

/-- The `metadata` dictionary attached to a chunk (lines 111, 132, 144-148):
a `type` tag plus the kind-specific keys. -/
inductive ChunkMeta where
  | monthly (month : String)
  | category (category : String)
  | transaction (date : String) (category : String)
deriving DecidableEq

/-- The `type` entry of the metadata dictionary. -/
def metaKind : ChunkMeta → String
  | .monthly _ => "monthly_summary"
  | .category _ => "category_summary"
  | .transaction _ _ => "transaction"

/-- A chunk: text plus metadata (lines 109-112). -/
structure Chunk where
  text : String
  metadata : ChunkMeta
deriving DecidableEq

/-! ## Chunk Builder (`process_excel_data`, lines 83-151) -/

/-- One row of the `monthly_summary` dataframe (lines 93-96):
`price` aggregated by `sum` and `count`, `category` by `value_counts`. -/
structure MonthlyRow where
  month : String
  total : ℚ
  count : Nat
  catCounts : List (String × Nat)
deriving DecidableEq

/-- One row of the `category_summary` dataframe (lines 115-117):
`price` aggregated by `sum`, `mean` and `count`. -/
structure CategoryRow where
  category : String
  total : ℚ
  avg : ℚ
  count : Nat
deriving DecidableEq

/-- `df.groupby('month').agg({...}).reset_index()` (lines 93-96).  One row
per distinct month.  (pandas emits groups in ascending key order; this
embedding uses first-occurrence order.  No theorem below depends on the
order.) -/
def monthly_summary (df : List Transaction) : List MonthlyRow :=
  ((df.map monthKey).dedup).map (fun k =>
    let g := df.filter (fun t => decide (monthKey t = k))
    { month := monthStr k
      total := (g.map Transaction.price).sum
      count := g.length
      catCounts := valueCounts (g.map Transaction.category) })

/-- `df.groupby('category').agg({...}).reset_index()` (lines 115-117). -/
def category_summary (df : List Transaction) : List CategoryRow :=
  ((df.map Transaction.category).dedup).map (fun c =>
    let g := df.filter (fun t => decide (t.category = c))
    { category := c
      total := (g.map Transaction.price).sum
      avg := (g.map Transaction.price).sum / (g.length : ℚ)
      count := g.length })

/-- The monthly chunk text (lines 104-107).  The triple-quoted f-string in
the source keeps the 8-space indentation of its continuation lines. -/
def monthlyChunkText (r : MonthlyRow) : String :=
  "Month: " ++ r.month
    ++ "\n        Total expenses: $" ++ fmt2 r.total
    ++ "\n        Number of transactions: " ++ toString r.count
    ++ "\n        Categories: " ++ jsonDumpsCounts r.catCounts

/-- The category chunk text (lines 125-128). -/
def categoryChunkText (r : CategoryRow) : String :=
  "Category: " ++ r.category
    ++ "\nTotal spent: $" ++ fmt2 r.total
    ++ "\nAverage transaction: $" ++ fmt2 r.avg
    ++ "\nNumber of transactions: " ++ toString r.count

/-- The per-transaction chunk text (lines 137-140). -/
def transactionChunkText (t : Transaction) : String :=
  "Transaction on " ++ dateStr t.date
    ++ "\nName: " ++ t.name
    ++ "\nCategory: " ++ t.category
    ++ "\nAmount: $" ++ fmt2 t.price

/-- The monthly-summary chunks (lines 98-112). -/
def monthlyChunks (df : List Transaction) : List Chunk :=
  (monthly_summary df).map (fun r => ⟨monthlyChunkText r, .monthly r.month⟩)

/-- The category-summary chunks (lines 119-133). -/
def categoryChunks (df : List Transaction) : List Chunk :=
  (category_summary df).map (fun r => ⟨categoryChunkText r, .category r.category⟩)

/-- The individual transaction chunks (lines 136-149). -/
def transactionChunks (df : List Transaction) : List Chunk :=
  df.map (fun t => ⟨transactionChunkText t, .transaction (dateStr t.date) t.category⟩)

/-- `process_excel_data` (lines 83-151): the three chunk families appended in
source order (monthly summaries, then category summaries, then
transactions). -/
def process_excel_data (df : List Transaction) : List Chunk :=
  monthlyChunks df ++ categoryChunks df ++ transactionChunks df

/-! ## Grouping lemmas -/

lemma dedup_toFinset {α : Type*} [DecidableEq α] (l : List α) :
    l.dedup.toFinset = l.toFinset := by
  ext a; simp

lemma filter_cons_sum {α κ : Type*} [DecidableEq κ] (key : α → κ) (f : α → ℚ)
    (a : α) (t : List α) (k : κ) :
    (((a :: t).filter (fun x => decide (key x = k))).map f).sum
      = (if key a = k then f a else 0)
        + ((t.filter (fun x => decide (key x = k))).map f).sum := by
  by_cases h : key a = k <;> simp [List.filter_cons, h]

/-- Summing a quantity fiberwise over the groups of a grouping key recovers
the total sum: the heart of the consistency of the grouped summaries. -/
lemma sum_fiber {α κ : Type*} [DecidableEq κ] (key : α → κ) (f : α → ℚ) :
    ∀ (l : List α) (s : Finset κ), (∀ a ∈ l, key a ∈ s) →
      (∑ k in s, ((l.filter (fun x => decide (key x = k))).map f).sum) = (l.map f).sum
  | [], s, _ => by simp
  | a :: t, s, h => by
      have ht : ∀ x ∈ t, key x ∈ s := fun x hx => h x (List.mem_cons_of_mem _ hx)
      have ha : key a ∈ s := h a (List.mem_cons_self _ _)
      have step := sum_fiber key f t s ht
      calc (∑ k in s, (((a :: t).filter (fun x => decide (key x = k))).map f).sum)
          = ∑ k in s, ((if key a = k then f a else 0)
              + ((t.filter (fun x => decide (key x = k))).map f).sum) :=
            Finset.sum_congr rfl (fun k _ => filter_cons_sum key f a t k)
        _ = (∑ k in s, if key a = k then f a else 0)
              + ∑ k in s, ((t.filter (fun x => decide (key x = k))).map f).sum :=
            Finset.sum_add_distrib
        _ = f a + (t.map f).sum := by rw [step, Finset.sum_ite_eq, if_pos ha]
        _ = ((a :: t).map f).sum := by simp

lemma monthly_total_sum (df : List Transaction) :
    ((monthly_summary df).map MonthlyRow.total).sum = (df.map Transaction.price).sum := by
  have h : ∀ t ∈ df, monthKey t ∈ (df.map monthKey).toFinset := by
    intro t ht
    simp only [List.mem_toFinset, List.mem_map]
    exact ⟨t, ht, rfl⟩
  calc ((monthly_summary df).map MonthlyRow.total).sum
      = (((df.map monthKey).dedup).map
          (fun k => ((df.filter (fun t => decide (monthKey t = k))).map
            Transaction.price).sum)).sum := by
        simp [monthly_summary, List.map_map, Function.comp_def]
    _ = ∑ k in ((df.map monthKey).dedup).toFinset,
          ((df.filter (fun t => decide (monthKey t = k))).map Transaction.price).sum :=
        (List.sum_toFinset _ (List.nodup_dedup _)).symm
    _ = ∑ k in (df.map monthKey).toFinset,
          ((df.filter (fun t => decide (monthKey t = k))).map Transaction.price).sum := by
        rw [dedup_toFinset]
    _ = (df.map Transaction.price).sum := sum_fiber monthKey Transaction.price df _ h

lemma category_total_sum (df : List Transaction) :
    ((category_summary df).map CategoryRow.total).sum = (df.map Transaction.price).sum := by
  have h : ∀ t ∈ df, t.category ∈ (df.map Transaction.category).toFinset := by
    intro t ht
    simp only [List.mem_toFinset, List.mem_map]
    exact ⟨t, ht, rfl⟩
  calc ((category_summary df).map CategoryRow.total).sum
      = (((df.map Transaction.category).dedup).map
          (fun c => ((df.filter (fun t => decide (t.category = c))).map
            Transaction.price).sum)).sum := by
        simp [category_summary, List.map_map, Function.comp_def]
    _ = ∑ c in ((df.map Transaction.category).dedup).toFinset,
          ((df.filter (fun t => decide (t.category = c))).map Transaction.price).sum :=
        (List.sum_toFinset _ (List.nodup_dedup _)).symm
    _ = ∑ c in (df.map Transaction.category).toFinset,
          ((df.filter (fun t => decide (t.category = c))).map Transaction.price).sum := by
        rw [dedup_toFinset]
    _ = (df.map Transaction.price).sum :=
        sum_fiber Transaction.category Transaction.price df _ h

lemma monthly_summary_length (df : List Transaction) :
    (monthly_summary df).length = (df.map monthKey).toFinset.card := by
  rw [List.card_toFinset]
  simp [monthly_summary]

lemma category_summary_length (df : List Transaction) :
    (category_summary df).length = (df.map Transaction.category).toFinset.card := by
  rw [List.card_toFinset]
  simp [category_summary]

/-! ## Claim theorems: Chunk Builder -/

/-- C1: for every valid transaction set, `process_excel_data` produces
exactly one monthly-summary chunk per distinct calendar month, one
category-summary chunk per distinct category, and one transaction chunk per
input transaction; the empty transaction list yields the empty chunk list. -/
theorem chunk_counts_correct (df : List Transaction) :
    ((process_excel_data df).filter
        (fun c => metaKind c.metadata == "monthly_summary")).length
      = (df.map monthKey).toFinset.card ∧
    ((process_excel_data df).filter
        (fun c => metaKind c.metadata == "category_summary")).length
      = (df.map Transaction.category).toFinset.card ∧
    ((process_excel_data df).filter
        (fun c => metaKind c.metadata == "transaction")).length
      = df.length ∧
    process_excel_data ([] : List Transaction) = [] := by
  have hcm : (("category_summary" : String) == "monthly_summary") = false := by decide
  have htm : (("transaction" : String) == "monthly_summary") = false := by decide
  have hmc : (("monthly_summary" : String) == "category_summary") = false := by decide
  have htc : (("transaction" : String) == "category_summary") = false := by decide
  have hmt : (("monthly_summary" : String) == "transaction") = false := by decide
  have hct : (("category_summary" : String) == "transaction") = false := by decide
  refine ⟨?_, ?_, ?_, rfl⟩
  · rw [← monthly_summary_length]
    simp [process_excel_data, monthlyChunks, categoryChunks, transactionChunks,
      List.filter_append, List.filter_map, Function.comp_def, metaKind, List.filter_true, List.filter_false, hcm, htm]
  · rw [← category_summary_length]
    simp [process_excel_data, monthlyChunks, categoryChunks, transactionChunks,
      List.filter_append, List.filter_map, Function.comp_def, metaKind, List.filter_true, List.filter_false, hmc, htc]
  · simp [process_excel_data, monthlyChunks, categoryChunks, transactionChunks,
      List.filter_append, List.filter_map, Function.comp_def, metaKind, List.filter_true, List.filter_false, hmt, hct]

/-- C2: the monthly-summary totals, the category-summary totals, and the raw
transaction prices all sum to the same amount — in the exact rational
embedding the three sums are equal, so in particular they agree within the
spec's tolerance of 0.01. -/
theorem totals_consistent (df : List Transaction) :
    |((monthly_summary df).map MonthlyRow.total).sum
        - (df.map Transaction.price).sum| ≤ (1/100 : ℚ) ∧
    |((category_summary df).map CategoryRow.total).sum
        - (df.map Transaction.price).sum| ≤ (1/100 : ℚ) ∧
    |((monthly_summary df).map MonthlyRow.total).sum
        - ((category_summary df).map CategoryRow.total).sum| ≤ (1/100 : ℚ) := by
  rw [monthly_total_sum, category_total_sum]
  norm_num

/-! ## HTTP errors and Python exceptions -/

deriving instance DecidableEq for Except

/-- Python's `s.replace('-', '_')` for the single-character pattern used by
both endpoints: replace every occurrence of the character.  (Defined over
the character list so that the kernel can evaluate it on concrete
inputs.) -/
def pyReplaceChar (s : String) (a b : Char) : String :=
  ⟨s.data.map (fun c => if c = a then b else c)⟩

/-- Python's `s.endswith(suffix)`, defined over the character lists. -/
def strEndsWith (s suffix : String) : Bool :=
  List.isSuffixOf suffix.data s.data

/-- A FastAPI `HTTPException`: status code plus detail string. -/
structure HTTPError where
  status : Nat
  detail : String
deriving DecidableEq

/-- A Python exception as observed by a bare `except Exception` clause:
either an `HTTPException` or any other exception carrying its message. -/
inductive Exc where
  | http (e : HTTPError)
  | other (msg : String)
deriving DecidableEq

/-- Python's `str(e)`.  For `HTTPException`, starlette defines
`__str__ = f"{status_code}: {detail}"`; for other exceptions it is the
message. -/
def excStr : Exc → String
  | .http e => toString e.status ++ ": " ++ e.detail
  | .other msg => msg

/-! ## Vector store (Chroma client, embedded as an association list) -/

/-- The persistent Chroma store: collection name to stored chunks.  The
per-document ids `f"{user_id}_{i}"` (line 195) are not modelled; no claim
concerns them. -/
def Store : Type := List (String × List Chunk)

/-- `chroma_client.delete_collection(name)` wrapped in `try/except: pass`
(lines 181-184): removes every entry with the given name, absence is not an
error. -/
def deleteCollection (st : Store) (n : String) : Store :=
  st.filter (fun p => !(p.1 == n))

/-- `collection.add(...)` (lines 200-205): append the documents to the named
collection. -/
def addDocs (st : Store) (n : String) (docs : List Chunk) : Store :=
  st.map (fun p => if p.1 == n then (p.1, p.2 ++ docs) else p)

/-! ## Answer Generator (`call_lm_studio`, lines 53-80) -/

/-- `LM_STUDIO_URL` (line 27). -/
def LM_STUDIO_URL : String := "http://localhost:1234/v1/chat/completions"

/-- The body sent to the completion endpoint (lines 69-74). -/
structure LMRequest where
  messages : List (String × String)
  temperature : ℚ
  max_tokens : Nat
  stream : Bool
deriving DecidableEq

/-- The fixed system instruction (lines 56-58).  The triple-quoted source
string keeps a trailing space on its first line and 4-space indentation on
its continuation lines. -/
def system_message : String :=
  "You are a helpful financial assistant analyzing expense data. \n    Use the provided context to answer questions about income, expenses, and spending patterns.\n    Be concise and specific with numbers. If asked about comparisons, calculate differences and percentages."

/-- The user message (line 62): `f"Context:\n{context}\n\nQuestion: {prompt}"`. -/
def lmUserMessage (prompt context : String) : String :=
  "Context:\n" ++ context ++ "\n\nQuestion: " ++ prompt

/-- The single request body built by `call_lm_studio` (lines 60-74). -/
def lmRequest (prompt context : String) : LMRequest :=
  { messages := [("system", system_message), ("user", lmUserMessage prompt context)]
    temperature := 7/10
    max_tokens := 500
    stream := false }

/-- The observable outcome of the one `client.post` exchange: either the
completion text was extracted successfully, or some exception was raised on
the way (connection error, timeout, `raise_for_status` on a non-2xx reply,
or a missing `choices/message/content` field), carrying `str(e)`. -/
inductive LMOutcome where
  | success (content : String)
  | failure (cause : String)
deriving DecidableEq

/-- The behaviour of one `call_lm_studio` invocation: the requests it sent
and its result. -/
structure LMCall where
  sent : List LMRequest
  result : Except HTTPError String
deriving DecidableEq

/-- `call_lm_studio` (lines 53-80): build the two messages, post them once,
and on any exception raise `HTTPException(500, f"LM Studio error: {e}")`. -/
def call_lm_studio (prompt context : String) (o : LMOutcome) : LMCall :=
  { sent := [lmRequest prompt context]
    result := match o with
      | .success content => .ok content
      | .failure cause => .error ⟨500, "LM Studio error: " ++ cause⟩ }

/-! ## Upload endpoint (`upload_expenses`, lines 154-214) -/

/-- The spreadsheet file as seen by the endpoint: its filename, and the
outcome of `pd.read_excel` on its bytes — a parse error, or a sheet with
its column names and (when the required columns are present) its rows. -/
structure ParsedSheet where
  columns : List String
  rows : List Transaction
deriving DecidableEq

structure ExcelFile where
  filename : String
  parse : Except String ParsedSheet
deriving DecidableEq

/-- `required_columns` (line 166). -/
def required_columns : List String := ["name", "price", "category", "date"]

/-- Python's `f"{xs}"` on a list of strings: `repr` with single quotes. -/
def pyListRepr (xs : List String) : String :=
  "[" ++ String.intercalate ", " (xs.map (fun s => "\x27" ++ s ++ "\x27")) ++ "]"

/-- Failure injection for the external collaborators used by the upload
path: `chroma_client.create_collection` (line 187),
`embeddings.embed_documents` (line 198) and `collection.add` (line 200).
`some msg` means the call raises an exception with message `msg`. -/
structure UploadOracle where
  createFail : Option String
  embedFail : Option String
  addFail : Option String
deriving DecidableEq

/-- The 200 body of a successful upload (lines 207-211). -/
structure UploadSuccess where
  status : String
  message : String
  user_id : String
deriving DecidableEq

/-- The collection name computed by the upload endpoint (line 178):
`f"expenses_{user_id.replace('-', '_')}"`. -/
def uploadCollectionName (user_id : String) : String :=
  "expenses_" ++ pyReplaceChar user_id '-' '_'

/-- Lines 177-211 of the `try:` block, entered once `process_excel_data`
has produced the chunks: compute the collection name, delete the prior
collection, create the fresh one, embed, add, and acknowledge
(`rowCount` is `len(df)`, used in the success message). -/
def uploadStorePhase (st : Store) (user_id : String) (rowCount : Nat)
    (chunks : List Chunk) (o : UploadOracle) : Except Exc UploadSuccess × Store :=
  let collection_name := uploadCollectionName user_id
  let st1 := deleteCollection st collection_name
  match o.createFail with
  | some m => (.error (.other m), st1)
  | none =>
    let st2 := (collection_name, ([] : List Chunk)) :: st1
    match o.embedFail with
    | some m => (.error (.other m), st2)
    | none =>
      match o.addFail with
      | some m => (.error (.other m), st2)
      | none =>
        (.ok { status := "success"
               message := "Uploaded " ++ toString rowCount
                 ++ " transactions, created " ++ toString chunks.length ++ " chunks"
               user_id := user_id },
         addDocs st2 collection_name chunks)

/-- The body of the `try:` block of `upload_expenses` (lines 161-211),
returning the raised exception or the success body, together with the store
state it leaves behind.  Here `process_excel_data` is the total function of
the embedding: see `uploadBodyFull` below for the model in which that step
(line 175) can itself raise. -/
def uploadBody (st : Store) (file : ExcelFile) (user_id : String) (o : UploadOracle) :
    Except Exc UploadSuccess × Store :=
  match file.parse with
  | .error msg => (.error (.other msg), st)
  | .ok sheet =>
    let missing := required_columns.filter (fun c => !(sheet.columns.contains c))
    if missing = [] then
      uploadStorePhase st user_id sheet.rows.length (process_excel_data sheet.rows) o
    else
      (.error (.http ⟨400, "Missing required columns: " ++ pyListRepr missing⟩), st)

/-- `upload_expenses` (lines 154-214).  The extension check (lines 158-159)
sits before the `try:` block, so its 400 propagates; everything raised
inside the block — `HTTPException` included, since the endpoint has no
`except HTTPException: raise` clause — is caught by the bare
`except Exception` (line 213) and re-raised as
`HTTPException(500, str(e))`. -/
def upload_expenses (st : Store) (file : ExcelFile) (user_id : String) (o : UploadOracle) :
    Except HTTPError UploadSuccess × Store :=
  if (strEndsWith file.filename ".xlsx" || strEndsWith file.filename ".xls") = false then
    (.error ⟨400, "Only Excel files are supported"⟩, st)
  else
    match uploadBody st file user_id o with
    | (.ok r, st') => (.ok r, st')
    | (.error e, st') => (.error ⟨500, excStr e⟩, st')

/-- `UploadOracle` extended with a failure injection for
`process_excel_data` itself (line 175): pandas raises there on data the
read step accepted — e.g. `pd.to_datetime` on an unparseable `date` cell,
or the `:.2f` format on a non-numeric `price` — and this happens BEFORE
the delete at line 182, so before the store is touched at all. -/
structure UploadRunOracle extends UploadOracle where
  processFail : Option String
deriving DecidableEq

/-- The `try:` block of `upload_expenses` with every failure point of the
source modelled, in source order: `pd.read_excel` (163), column validation
(166-172), `process_excel_data` (175, store untouched on failure), then
the store phase (177-211). -/
def uploadBodyFull (st : Store) (file : ExcelFile) (user_id : String)
    (o : UploadRunOracle) : Except Exc UploadSuccess × Store :=
  match file.parse with
  | .error msg => (.error (.other msg), st)
  | .ok sheet =>
    let missing := required_columns.filter (fun c => !(sheet.columns.contains c))
    if missing = [] then
      match o.processFail with
      | some m => (.error (.other m), st)
      | none =>
        uploadStorePhase st user_id sheet.rows.length (process_excel_data sheet.rows)
          o.toUploadOracle
    else
      (.error (.http ⟨400, "Missing required columns: " ++ pyListRepr missing⟩), st)

/-- `upload_expenses` over the full failure model. -/
def upload_expenses_full (st : Store) (file : ExcelFile) (user_id : String)
    (o : UploadRunOracle) : Except HTTPError UploadSuccess × Store :=
  if (strEndsWith file.filename ".xlsx" || strEndsWith file.filename ".xls") = false then
    (.error ⟨400, "Only Excel files are supported"⟩, st)
  else
    match uploadBodyFull st file user_id o with
    | (.ok r, st') => (.ok r, st')
    | (.error e, st') => (.error ⟨500, excStr e⟩, st')

/-! ## Chat endpoint (`chat`, lines 217-256) -/

structure ChatRequest where
  question : String
  user_id : String
deriving DecidableEq

structure ChatResponse where
  answer : String
  sources : List String
deriving DecidableEq

/-- The collaborators' behaviour during one chat request: the documents and
metadata returned by `collection.query` (top-5 similarity search), and the
outcome of the completion call. -/
structure ChatOracle where
  retrieved : List (String × ChunkMeta)
  lm : LMOutcome

/-- The collection name computed by the chat endpoint (line 223):
`f"expenses_{request.user_id.replace('-', '_')}"`. -/
def chatCollectionName (user_id : String) : String :=
  "expenses_" ++ pyReplaceChar user_id '-' '_'

/-- The body of the outer `try:` block of `chat` (lines 221-251).  The inner
`try/except` around `chroma_client.get_collection` (lines 225-231) turns a
missing collection into `HTTPException(404, ...)`. -/
def chatBody (st : Store) (req : ChatRequest) (o : ChatOracle) : Except Exc ChatResponse :=
  let collection_name := chatCollectionName req.user_id
  match List.lookup collection_name st with
  | none => .error (.http ⟨404, "No expense data found. Please upload an Excel file first."⟩)
  | some _collection =>
    let docs := o.retrieved.map Prod.fst
    let metas := o.retrieved.map Prod.snd
    let context := String.intercalate "\n\n" docs
    let sources := metas.map metaKind
    match (call_lm_studio req.question context o.lm).result with
    | .ok answer => .ok { answer := answer, sources := sources }
    | .error e => .error (.http e)

/-- `chat` (lines 217-256): unlike the upload endpoint, the outer handler
has `except HTTPException: raise` (line 253), so 404s and the 500 from
`call_lm_studio` pass through unchanged, and only non-`HTTPException`
failures become fresh 500s. -/
def chat (st : Store) (req : ChatRequest) (o : ChatOracle) : Except HTTPError ChatResponse :=
  match chatBody st req o with
  | .ok r => .ok r
  | .error (.http e) => .error e
  | .error (.other m) => .error ⟨500, m⟩

/-! ## Health endpoint (`health_check`, lines 259-274) -/

/-- The URL the health check actually probes (line 266) — a hardcoded
address, not derived from `LM_STUDIO_URL`. -/
def healthCheckURL : String := "http://10.0.85.2:1234/v1/models"

/-- The probe timeout in seconds (line 265). -/
def healthTimeout : ℚ := 5

/-- The outcome of the `client.get` probe: a reply with some status code,
or any raised exception (unreachable, timeout, ...). -/
inductive ProbeOutcome where
  | reply (status : Nat)
  | exc
deriving DecidableEq

structure HealthResponse where
  status : String
  lm_studio_connected : Bool
deriving DecidableEq

/-- `health_check` (lines 259-274): `lm_studio_status` is true exactly when
the probe replied with status 200; every exception is swallowed by the bare
`except:` and recorded as `False`.  The endpoint itself always returns 200
with the fixed body. -/
def health_check (o : ProbeOutcome) : Nat × HealthResponse :=
  let lm_studio_status := match o with
    | .reply c => c == 200
    | .exc => false
  (200, { status := "healthy", lm_studio_connected := lm_studio_status })

/-! ## Store lemmas -/

lemma lookup_deleteCollection (st : List (String × List Chunk)) (n : String) :
    List.lookup n (deleteCollection st n) = none := by
  induction st with
  | nil => rfl
  | cons p t ih =>
      obtain ⟨k, v⟩ := p
      by_cases h : k = n
      · simpa [deleteCollection, List.filter_cons, h] using ih
      · have hb : (n == k) = false := beq_eq_false_iff_ne.mpr (Ne.symm h)
        have hb' : (k == n) = false := beq_eq_false_iff_ne.mpr h
        simpa [deleteCollection, List.filter_cons, hb', List.lookup, hb] using ih

lemma countP_deleteCollection (st : List (String × List Chunk)) (n : String) :
    (deleteCollection st n).countP (fun p => p.1 == n) = 0 := by
  induction st with
  | nil => rfl
  | cons p t ih =>
      obtain ⟨k, v⟩ := p
      by_cases h : k = n
      · simp only [deleteCollection, List.filter_cons] at ih ⊢
        simp [h, ih]
      · have hb : (k == n) = false := beq_eq_false_iff_ne.mpr h
        simp only [deleteCollection, List.filter_cons] at ih ⊢
        simp [hb, List.countP_cons, ih]

lemma map_filter_id {α : Type*} (f : α → α) (q : α → Bool) (l : List α)
    (h : ∀ a, q a = true → f a = a) : (l.filter q).map f = l.filter q := by
  induction l with
  | nil => rfl
  | cons a t ih =>
      by_cases ha : q a = true
      · rw [List.filter_cons_of_pos ha, List.map_cons, h a ha, ih]
      · rw [List.filter_cons_of_neg (by simpa using ha), ih]

lemma addDocs_deleteCollection (st : List (String × List Chunk)) (n : String)
    (docs : List Chunk) :
    addDocs (deleteCollection st n) n docs = deleteCollection st n := by
  unfold addDocs deleteCollection
  apply map_filter_id
  intro p hq
  simp at hq
  simp [hq]

lemma addDocs_cons_self (d : List (String × List Chunk)) (n : String)
    (v docs : List Chunk) :
    addDocs ((n, v) :: d) n docs = (n, v ++ docs) :: addDocs d n docs := by
  simp [addDocs]

/-- A successful upload run in full: extension accepted, parse succeeded, no
missing column, no collaborator failure.  The resulting store holds the
fresh chunks under the user's collection name, in front of the prior store
purged of that name. -/
lemma upload_success_eq (st : List (String × List Chunk)) (file : ExcelFile)
    (user_id : String) (o : UploadOracle) (sheet : ParsedSheet)
    (hext : (strEndsWith file.filename ".xlsx" || strEndsWith file.filename ".xls") = true)
    (hparse : file.parse = .ok sheet)
    (hcols : required_columns.filter (fun c => !(sheet.columns.contains c)) = [])
    (hc : o.createFail = none) (he : o.embedFail = none) (ha : o.addFail = none) :
    upload_expenses st file user_id o
      = (.ok { status := "success"
               message := "Uploaded " ++ toString sheet.rows.length
                 ++ " transactions, created "
                 ++ toString (process_excel_data sheet.rows).length ++ " chunks"
               user_id := user_id },
         (uploadCollectionName user_id, process_excel_data sheet.rows)
           :: deleteCollection st (uploadCollectionName user_id)) := by
  have hall : ∀ a ∈ required_columns, a ∈ sheet.columns := by
    intro a ha
    by_contra hmem
    have hmemf : a ∈ required_columns.filter (fun c => !(sheet.columns.contains c)) :=
      List.mem_filter.mpr ⟨ha, by simp [hmem]⟩
    rw [hcols] at hmemf
    exact absurd hmemf (List.not_mem_nil a)
  simp [upload_expenses, uploadBody, uploadStorePhase, hparse, hext, hcols, hc, he, ha,
    addDocs_cons_self, addDocs_deleteCollection]
  rw [if_pos hall]

/-- The status code of an endpoint result, when it is an error. -/
def statusOf {α : Type*} : Except HTTPError α → Option Nat
  | .error e => some e.status
  | .ok _ => none

/-! ## Concrete fixtures -/

/-- The spec's scenario transaction `{name: "Coffee", price: 4.50,
category: "Food", date: 2024-01-05}`. -/
def txCoffee : Transaction := ⟨"Coffee", 9/2, "Food", ⟨2024, 1, 5⟩⟩

/-- The spec's scenario transaction `{name: "Rent", price: 1200.00,
category: "Housing", date: 2024-01-01}`. -/
def txRent : Transaction := ⟨"Rent", 1200, "Housing", ⟨2024, 1, 1⟩⟩

/-- A well-formed `.xlsx` upload holding the two scenario transactions. -/
def goodFile : ExcelFile :=
  ⟨"expenses.xlsx", .ok ⟨["name", "price", "category", "date"], [txCoffee, txRent]⟩⟩

/-- An `.xlsx` upload whose sheet lacks the `category` column. -/
def fileMissingCategory : ExcelFile :=
  ⟨"expenses.xlsx", .ok ⟨["name", "price", "date"], []⟩⟩

/-- A `.csv` upload (contents present and well-formed, to show they are
never consulted). -/
def fileCsv : ExcelFile :=
  ⟨"expenses.csv", .ok ⟨["name", "price", "category", "date"], [txCoffee]⟩⟩

/-- No collaborator failure. -/
def noFail : UploadOracle := ⟨none, none, none⟩

/-- `embeddings.embed_documents` raises. -/
def embedBoom : UploadOracle := ⟨none, some "embedding model crashed", none⟩

/-! ## Claim theorems: API layer -/

/-- C3 (code bug): uploading a recognized `.xlsx` file whose sheet lacks
the `category` column does NOT return a 400-class response.  The inner
`HTTPException(400, "Missing required columns: ['category']")` is caught by
the endpoint's own bare `except Exception` and re-raised as a 500 whose
detail is `str` of the original exception. -/
theorem missing_column_upload_returns_500 :
    upload_expenses [] fileMissingCategory "default" noFail
      = (.error ⟨500, "400: Missing required columns: [\x27category\x27]"⟩, []) := by
  rfl

/-- C4: a successful upload replaces the user's collection wholesale: the
resulting store maps the user's collection name to exactly the freshly
computed chunks (independently of any prior contents — never an appended
superset), exactly one entry for that name exists, re-uploading the same
file yields a collection with the same contents (hence the same chunk
count), and the endpoint acknowledges with the success body. -/
theorem upload_replaces_collection (st : List (String × List Chunk)) (file : ExcelFile)
    (user_id : String) (o : UploadOracle) (sheet : ParsedSheet)
    (hext : (strEndsWith file.filename ".xlsx" || strEndsWith file.filename ".xls") = true)
    (hparse : file.parse = .ok sheet)
    (hcols : required_columns.filter (fun c => !(sheet.columns.contains c)) = [])
    (hc : o.createFail = none) (he : o.embedFail = none) (ha : o.addFail = none) :
    List.lookup (uploadCollectionName user_id) (upload_expenses st file user_id o).2
      = some (process_excel_data sheet.rows) ∧
    ((upload_expenses st file user_id o).2).countP
        (fun p => p.1 == uploadCollectionName user_id) = 1 ∧
    List.lookup (uploadCollectionName user_id)
        (upload_expenses (upload_expenses st file user_id o).2 file user_id o).2
      = some (process_excel_data sheet.rows) ∧
    (upload_expenses st file user_id o).1
      = .ok { status := "success"
              message := "Uploaded " ++ toString sheet.rows.length
                ++ " transactions, created "
                ++ toString (process_excel_data sheet.rows).length ++ " chunks"
              user_id := user_id } := by
  have h1 := upload_success_eq st file user_id o sheet hext hparse hcols hc he ha
  have h2 := upload_success_eq (upload_expenses st file user_id o).2 file user_id o sheet
    hext hparse hcols hc he ha
  refine ⟨?_, ?_, ?_, ?_⟩
  · rw [h1]
    simp [List.lookup]
  · rw [h1]
    simp [List.countP_cons, countP_deleteCollection]
  · rw [h2]
    simp [List.lookup]
  · rw [h1]

theorem upload_replaces_collection_witness :
    List.lookup (uploadCollectionName "user-1") (upload_expenses [] goodFile "user-1" noFail).2
      = some (process_excel_data [txCoffee, txRent]) ∧
    ((upload_expenses [] goodFile "user-1" noFail).2).countP
        (fun p => p.1 == uploadCollectionName "user-1") = 1 ∧
    List.lookup (uploadCollectionName "user-1")
        (upload_expenses (upload_expenses [] goodFile "user-1" noFail).2 goodFile "user-1" noFail).2
      = some (process_excel_data [txCoffee, txRent]) ∧
    (upload_expenses [] goodFile "user-1" noFail).1
      = .ok { status := "success"
              message := "Uploaded " ++ toString ([txCoffee, txRent].length)
                ++ " transactions, created "
                ++ toString (process_excel_data [txCoffee, txRent]).length ++ " chunks"
              user_id := "user-1" } :=
  upload_replaces_collection [] goodFile "user-1" noFail
    ⟨["name", "price", "category", "date"], [txCoffee, txRent]⟩
    (by decide) rfl (by decide) rfl rfl rfl

/-- C5: a chat request for a user whose collection is absent from the store
returns exactly the 404 with the upload-first message, for every behaviour
of the retrieval and completion collaborators — the `except HTTPException:
raise` clause re-raises it unchanged, so it is never turned into a 500. -/
theorem chat_missing_collection_404 (st : List (String × List Chunk)) (req : ChatRequest)
    (o : ChatOracle)
    (h : List.lookup (chatCollectionName req.user_id) st = none) :
    chat st req o
      = .error ⟨404, "No expense data found. Please upload an Excel file first."⟩ := by
  simp [chat, chatBody, h]

theorem chat_missing_collection_404_witness :
    chat [] ⟨"How much did I spend on Food?", "user-2"⟩ ⟨[], .failure "unreachable"⟩
      = .error ⟨404, "No expense data found. Please upload an Excel file first."⟩ :=
  chat_missing_collection_404 [] ⟨"How much did I spend on Food?", "user-2"⟩
    ⟨[], .failure "unreachable"⟩ rfl

/-- C7: both endpoints derive the collection name identically — the literal
prefix `expenses_` followed by the user identifier with every hyphen
replaced by an underscore — so distinct identifiers that normalize alike
collide (an accepted, unguarded collision). -/
theorem collection_naming (user_id : String) :
    uploadCollectionName user_id = chatCollectionName user_id ∧
    uploadCollectionName user_id = "expenses_" ++ pyReplaceChar user_id '-' '_' ∧
    uploadCollectionName "a-b" = "expenses_a_b" ∧
    uploadCollectionName "a_b" = "expenses_a_b" ∧
    ("a-b" : String) ≠ "a_b" ∧
    uploadCollectionName "a-b-c" = "expenses_a_b_c" :=
  ⟨rfl, rfl, by decide, by decide, by decide, by decide⟩

/-- C8: for every question and every ranked sequence of retrieved chunk
texts, the answer generator sends exactly one request, holding exactly the
fixed system message and the user message embedding the blank-line-joined
context and the question, with temperature 0.7, max_tokens 500 and
streaming disabled; on success it returns the completion, and on any
failure it raises a single 500 whose message includes the underlying
cause — there is no retry. -/
theorem lm_request_shape (question : String) (docs : List String) (o : LMOutcome) :
    (call_lm_studio question (String.intercalate "\n\n" docs) o).sent
      = [{ messages := [("system", system_message),
             ("user", "Context:\n" ++ String.intercalate "\n\n" docs
               ++ "\n\nQuestion: " ++ question)]
           temperature := 7/10
           max_tokens := 500
           stream := false }] ∧
    (call_lm_studio question (String.intercalate "\n\n" docs) o).sent.length = 1 ∧
    (call_lm_studio question (String.intercalate "\n\n" docs) o).result
      = (match o with
         | .success content => .ok content
         | .failure cause => .error ⟨500, "LM Studio error: " ++ cause⟩) :=
  ⟨rfl, rfl, rfl⟩

/-- C9: a filename that ends in neither `.xlsx` nor `.xls` is rejected with
the 400 before anything else happens: the result is the same for every
store, every parse outcome of the file's bytes, and every collaborator
behaviour, and the store is untouched. -/
theorem unsupported_extension_400 (st : List (String × List Chunk)) (file : ExcelFile)
    (user_id : String) (o : UploadOracle)
    (h : (strEndsWith file.filename ".xlsx" || strEndsWith file.filename ".xls") = false) :
    upload_expenses st file user_id o
      = (.error ⟨400, "Only Excel files are supported"⟩, st) := by
  simp [upload_expenses, h]

theorem unsupported_extension_400_witness :
    upload_expenses [] fileCsv "default" noFail
      = (.error ⟨400, "Only Excel files are supported"⟩, []) :=
  unsupported_extension_400 [] fileCsv "default" noFail (by decide)

/-- A failure injected at any step after the delete (collection creation,
embedding, insertion) yields a 500 with the prior collection already
purged: afterwards the user's collection name resolves to nothing, or to a
freshly created empty collection. -/
lemma upload_late_failure_cases (st : List (String × List Chunk)) (file : ExcelFile)
    (user_id : String) (o : UploadOracle) (sheet : ParsedSheet)
    (hext : (strEndsWith file.filename ".xlsx" || strEndsWith file.filename ".xls") = true)
    (hparse : file.parse = .ok sheet)
    (hcols : required_columns.filter (fun c => !(sheet.columns.contains c)) = [])
    (hfail : ¬(o.createFail = none ∧ o.embedFail = none ∧ o.addFail = none)) :
    statusOf (upload_expenses st file user_id o).1 = some 500 ∧
    (List.lookup (uploadCollectionName user_id) (upload_expenses st file user_id o).2 = none ∨
     List.lookup (uploadCollectionName user_id) (upload_expenses st file user_id o).2
       = some []) := by
  have hall : ∀ a ∈ required_columns, a ∈ sheet.columns := by
    intro a ha
    by_contra hmem
    have hmemf : a ∈ required_columns.filter (fun c => !(sheet.columns.contains c)) :=
      List.mem_filter.mpr ⟨ha, by simp [hmem]⟩
    rw [hcols] at hmemf
    exact absurd hmemf (List.not_mem_nil a)
  obtain ⟨cf, ef, af⟩ := o
  cases cf with
  | some m =>
      have he : upload_expenses st file user_id ⟨some m, ef, af⟩
          = (.error ⟨500, m⟩, deleteCollection st (uploadCollectionName user_id)) := by
        simp [upload_expenses, uploadBody, uploadStorePhase, hparse, hext, hcols, excStr]
        rw [if_pos hall]
      rw [he]
      exact ⟨rfl, .inl (lookup_deleteCollection st _)⟩
  | none =>
      cases ef with
      | some m =>
          have he : upload_expenses st file user_id ⟨none, some m, af⟩
              = (.error ⟨500, m⟩,
                 (uploadCollectionName user_id, ([] : List Chunk))
                   :: deleteCollection st (uploadCollectionName user_id)) := by
            simp [upload_expenses, uploadBody, uploadStorePhase, hparse, hext, hcols, excStr]
            rw [if_pos hall]
          rw [he]
          refine ⟨rfl, .inr ?_⟩
          simp [List.lookup]
      | none =>
          cases af with
          | some m =>
              have he : upload_expenses st file user_id ⟨none, none, some m⟩
                  = (.error ⟨500, m⟩,
                     (uploadCollectionName user_id, ([] : List Chunk))
                       :: deleteCollection st (uploadCollectionName user_id)) := by
                simp [upload_expenses, uploadBody, uploadStorePhase, hparse, hext, hcols, excStr]
                rw [if_pos hall]
              rw [he]
              refine ⟨rfl, .inr ?_⟩
              simp [List.lookup]
          | none => exact absurd ⟨rfl, rfl, rfl⟩ hfail

/-- `upload_expenses` is exactly the slice of the full failure model in
which the chunk-processing step does not raise. -/
lemma upload_expenses_eq_full (st : Store) (file : ExcelFile) (user_id : String)
    (o : UploadOracle) :
    upload_expenses_full st file user_id ⟨o, none⟩ = upload_expenses st file user_id o := by
  have hb : uploadBodyFull st file user_id ⟨o, none⟩ = uploadBody st file user_id o := by
    cases hp : file.parse <;> simp [uploadBodyFull, uploadBody, hp]
  simp [upload_expenses_full, upload_expenses, hb]

/-- A store already holding an indexed collection for `user_3`. -/
def priorStore : List (String × List Chunk) :=
  [("expenses_user_3", process_excel_data [txCoffee])]

/-- `process_excel_data` itself raises (e.g. `pd.to_datetime` on a date
cell it cannot parse); no other step fails. -/
def processBoom : UploadRunOracle :=
  ⟨⟨none, none, none⟩, some "Unknown datetime string format: not-a-date"⟩

/-- C10 counterexample: an upload execution in which validation succeeds
and a later step — chunk processing, one of the steps the claim
enumerates — raises, yet the user's previously stored collection has NOT
been deleted.  `process_excel_data` runs at line 175, before the delete at
line 182, so the endpoint returns the 500 with the store untouched and the
prior collection still queryable. -/
theorem process_failure_preserves_collection :
    statusOf (upload_expenses_full priorStore goodFile "user_3" processBoom).1 = some 500 ∧
    (upload_expenses_full priorStore goodFile "user_3" processBoom).2 = priorStore ∧
    List.lookup (uploadCollectionName "user_3")
        (upload_expenses_full priorStore goodFile "user_3" processBoom).2
      = some (process_excel_data [txCoffee]) :=
  ⟨rfl, rfl, rfl⟩

/-- C10 (amended): when validation passes and chunk processing completes
but collection creation, embedding or insertion fails, the endpoint
reports a 500 while the user's previous collection has already been
deleted and is not restored: afterwards the user's collection name
resolves to nothing, or to a freshly created empty collection — in either
case no queryable data remains.  (A chunk-processing failure, by contrast,
occurs before the delete and leaves the prior collection intact: see the
counterexample above.) -/
theorem upload_failure_not_atomic (st : List (String × List Chunk)) (file : ExcelFile)
    (user_id : String) (o : UploadRunOracle) (sheet : ParsedSheet)
    (hext : (strEndsWith file.filename ".xlsx" || strEndsWith file.filename ".xls") = true)
    (hparse : file.parse = .ok sheet)
    (hcols : required_columns.filter (fun c => !(sheet.columns.contains c)) = [])
    (hp : o.processFail = none)
    (hfail : ¬(o.createFail = none ∧ o.embedFail = none ∧ o.addFail = none)) :
    statusOf (upload_expenses_full st file user_id o).1 = some 500 ∧
    (List.lookup (uploadCollectionName user_id)
        (upload_expenses_full st file user_id o).2 = none ∨
     List.lookup (uploadCollectionName user_id)
        (upload_expenses_full st file user_id o).2 = some []) := by
  obtain ⟨base, pf⟩ := o
  simp only at hp
  subst hp
  rw [upload_expenses_eq_full]
  exact upload_late_failure_cases st file user_id base sheet hext hparse hcols hfail

theorem upload_failure_not_atomic_witness :
    statusOf (upload_expenses_full priorStore goodFile "user_3" ⟨embedBoom, none⟩).1
      = some 500 ∧
    (List.lookup (uploadCollectionName "user_3")
        (upload_expenses_full priorStore goodFile "user_3" ⟨embedBoom, none⟩).2 = none ∨
     List.lookup (uploadCollectionName "user_3")
        (upload_expenses_full priorStore goodFile "user_3" ⟨embedBoom, none⟩).2 = some []) :=
  upload_failure_not_atomic priorStore goodFile "user_3" ⟨embedBoom, none⟩
    ⟨["name", "price", "category", "date"], [txCoffee, txRent]⟩
    (by decide) rfl (by decide) rfl (by simp [embedBoom])

/-- The base under which the configured completion endpoint lives: the
code's `LM_STUDIO_URL` is exactly this base followed by the completions
route (proved in `health_probe_url_mismatch`). -/
def lmStudioBase : String := "http://localhost:1234/v1"

/-- Modelled from the spec: "probes the external language-model endpoint's
model-listing route" — the `models` route under the same base as the
configured completion endpoint `LM_STUDIO_URL`. -/
def spec_model_listing_route : String := lmStudioBase ++ "/models"

/-- C6 counterexample: the health check does not probe the configured
language-model endpoint's model-listing route.  `LM_STUDIO_URL` sits under
the base `http://localhost:1234/v1`, whose model-listing route would be
`http://localhost:1234/v1/models`, but the probe targets the hardcoded
`http://10.0.85.2:1234/v1/models` — a different host. -/
theorem health_probe_url_mismatch :
    LM_STUDIO_URL = lmStudioBase ++ "/chat/completions" ∧
    healthCheckURL ≠ spec_model_listing_route :=
  ⟨by decide, by decide⟩

/-- C6 (amended): the health check probes the hardcoded model-listing URL
`http://10.0.85.2:1234/v1/models` with a 5-second timeout, and for every
outcome of the probe it returns status 200 with body
`{status: "healthy", lm_studio_connected: b}`, where `b` is true exactly
when the probe replied 200 — every probe failure is swallowed and reported
as `false`, never raised. -/
theorem health_check_total (o : ProbeOutcome) :
    (health_check o).1 = 200 ∧
    (health_check o).2.status = "healthy" ∧
    (health_check o).2.lm_studio_connected
      = (match o with
         | .reply c => c == 200
         | .exc => false) ∧
    healthCheckURL = "http://10.0.85.2:1234/v1/models" ∧
    healthTimeout = 5 :=
  ⟨rfl, rfl, rfl, rfl, rfl⟩

end ExpenseApp
